import Mathlib

/-!
# Verification of the Time-Travel-Bot session logic

Shallow embedding of `time_travel_bot.py`: the Python string operations the
program uses (`str.strip`, `str.lower`, `str.title`, `str.split(" ", 1)`,
`str.startswith`, `textwrap.dedent`), the biography fetcher, the system-prompt
builder, the backend selection, and the per-message session state machine
`on_message`.  External I/O (the Wikipedia HTTP call and the chat-completion
call) is modelled by explicit oracle arguments; a turn that makes no call is a
turn whose result does not depend on the corresponding oracle.
-/

set_option maxRecDepth 40000

set_option maxHeartbeats 1000000

namespace TimeTravelBot

/-! ## Python string primitives (ASCII model) -/

/-- Characters treated as whitespace by Python `str.strip()` (ASCII range). -/
def pyWS (c : Char) : Bool :=
  c = ' ' || c = '\t' || c = '\n' || c = '\r' || c = '\u000b' || c = '\u000c'

/-- `str.strip()` on char lists: drop leading and trailing whitespace. -/
def stripChars (l : List Char) : List Char :=
  ((l.dropWhile pyWS).reverse.dropWhile pyWS).reverse

/-- Python `str.strip()`. -/
def pyStrip (s : String) : String := ⟨stripChars s.data⟩

/-- Python `str.lower()` (ASCII model). -/
def pyLower (s : String) : String := ⟨s.data.map Char.toLower⟩

/-- Python `s.startswith(pre)`. -/
def pyStartsWith (s pre : String) : Bool := pre.data.isPrefixOf s.data

/-- Helper for Python `str.title()`: the boolean tracks whether the previous
character was cased (a letter, in the ASCII model); a cased character after a
non-cased one is uppercased, any other character is lowercased. -/
def titleChars : Bool → List Char → List Char
  | _, [] => []
  | prevCased, c :: cs =>
      (if prevCased then c.toLower else c.toUpper) :: titleChars c.isAlpha cs

/-- Python `str.title()` (ASCII model). -/
def pyTitle (s : String) : String := ⟨titleChars false s.data⟩

/-- Python `s.split(" ", 1)`: locate the first literal space, returning the
text before it and the (untrimmed) remainder; `none` when there is no space,
which corresponds to `len(parts) == 1`. -/
def splitFirstSpace : List Char → Option (List Char × List Char)
  | [] => none
  | c :: cs =>
      if c = ' ' then some ([], cs)
      else
        match splitFirstSpace cs with
        | none => none
        | some (a, b) => some (c :: a, b)

/-! ## `textwrap.dedent` -/

/-- Characters counted as indentation by `textwrap.dedent` (regex `[ \t]`). -/
def wsChar (c : Char) : Bool := c = ' ' || c = '\t'

/-- Split a character list into lines at `'\n'` (Python `text.split('\n')`):
always returns at least one (possibly empty) line. -/
def breakLines : List Char → List (List Char)
  | [] => [[]]
  | c :: cs =>
      match breakLines cs with
      | [] => [[]]
      | l :: ls => if c = '\n' then [] :: l :: ls else (c :: l) :: ls

/-- Re-join lines with `'\n'` (inverse of `breakLines`). -/
def joinLines : List (List Char) → List Char
  | [] => []
  | [l] => l
  | l :: l' :: ls => l ++ '\n' :: joinLines (l' :: ls)

/-- Longest common starting run of two lists; this is what CPython's margin
update computes across the `startswith` branches and the mismatch scan. -/
def commonStart : List Char → List Char → List Char
  | a :: as, b :: bs => if a = b then a :: commonStart as bs else []
  | _, _ => []

/-- The margin of `textwrap.dedent`: fold the common-start operation over the
indents of all content lines (`None` when there is no content line). -/
def marginOf (indents : List (List Char)) : Option (List Char) :=
  indents.foldl
    (fun acc i =>
      match acc with
      | none => some i
      | some m => some (commonStart m i))
    none

/-- Line-level `textwrap.dedent`: blank the whitespace-only lines, compute the
common indentation margin of the lines that have content (a character outside
`[ \t]`), and remove that margin from the start of every line carrying it. -/
def dedentLines (ls : List (List Char)) : List (List Char) :=
  let blanked := ls.map fun l => if !l.isEmpty && l.all wsChar then [] else l
  let indents :=
    (blanked.filter fun l => l.any fun c => !wsChar c).map fun l =>
      l.takeWhile wsChar
  match marginOf indents with
  | none => blanked
  | some m => blanked.map fun l => if m.isPrefixOf l then l.drop m.length else l

/-- Python `textwrap.dedent`. -/
def dedent (s : String) : String := ⟨joinLines (dedentLines (breakLines s.data))⟩

/-! ## Biography fetcher (`fetch_bio`, lines 36-49) -/

/-- Result of the one HTTP GET performed by `fetch_bio`: either a transport
failure (network error / timeout raised by `requests.get`), or a response with
a status code and, when the body parsed as a JSON object, its string fields. -/
inductive WikiOutcome where
  | netError
  | response (status : Nat) (json : Option (List (String × String)))
deriving DecidableEq

/-- The URL built by `fetch_bio`: the summary endpoint with spaces
percent-encoded (`name.replace(' ', '%20')`). -/
def url_of (name : String) : String :=
  "https://en.wikipedia.org/api/rest_v1/page/summary/" ++
    (name.replace " " "%20")

/-- `fetch_bio(name)`, the HTTP call abstracted into an oracle keyed by the
requested URL.  Mirrors the `_request` body: `raise_for_status` raises exactly
for statuses ≥ 400, a parse failure of `r.json()` is the `none` payload, and
`data.get("extract", "")` yields `""` for a missing field; every raising path
is caught and mapped to `""`, so the function is total and returns a string
for every input. -/
def fetch_bio (name : String) (http : String → WikiOutcome) : String :=
  match http (url_of name) with
  | .netError => ""
  | .response status json =>
      if 400 ≤ status then ""
      else
        match json with
        | none => ""
        | some data =>
            match data.lookup "extract" with
            | none => ""
            | some v => v

/-- All the failure conditions of the lookup: network error, error status,
malformed payload, missing `extract` field. -/
def wikiFailure : WikiOutcome → Bool
  | .netError => true
  | .response status json =>
      400 ≤ status ||
        match json with
        | none => true
        | some data => (data.lookup "extract").isNone

/-! ## Prompt builder (`build_system_prompt`, lines 52-57) -/

/-- The grounding clause: `f"Here is a concise biography to ground you: {bio}"
if bio else ""`. -/
def bioClause (bio : String) : String :=
  if bio ≠ "" then "Here is a concise biography to ground you: " ++ bio else ""

/-- `build_system_prompt(name, bio)`: `textwrap.dedent` applied to the
f-string template of the source, with the optional grounding clause. -/
def build_system_prompt (name bio : String) : String :=
  dedent ("\n        You are " ++ name ++ ", speaking in first person. " ++
    bioClause bio ++
    "\n        Adopt " ++ name ++
    "'s typical tone, vocabulary, and worldview. Stay in character unless explicitly asked to drop the act. If you are unsure of something, make a best‑guess based on " ++
    name ++ "'s known life and era.\n    ")

/-! ## Backend selection (`get_async_client`, lines 26-33) -/

/-- The two credential environment variables read at startup; `none` models an
absent variable, `some s` a variable set to the string `s`. -/
structure Env where
  gemini : Option String
  openai : Option String
deriving DecidableEq

/-- Python truthiness of `os.getenv`'s result: `None` and `""` are falsy. -/
def truthy : Option String → Bool
  | none => false
  | some s => s != ""

/-- Constructor arguments of the `AsyncOpenAI` client: the key passed and the
base URL override (absent for the OpenAI default endpoint). -/
structure ClientConfig where
  api_key : Option String
  base_url : Option String
deriving DecidableEq

/-- The alternate base URL used for the Gemini backend. -/
def geminiBaseURL : String :=
  "https://generativelanguage.googleapis.com/v1beta/openai/"

/-- `get_async_client()`: branch on the truthiness of `OPENAI_API_KEY`. -/
def get_async_client (env : Env) : ClientConfig :=
  if truthy env.openai then ⟨env.openai, none⟩
  else ⟨env.gemini, some geminiBaseURL⟩

/-! ## Session state and `on_message` (lines 61-129) -/

/-- One `{role, content}` history entry. -/
structure Entry where
  role : String
  content : String
deriving DecidableEq

/-- The per-conversation session store: `persona`, `prompt`, `history` and the
model identifier (`model` is set once in `on_chat_start` and never written
again; the client handle carries no session-visible state and is omitted). -/
structure Session where
  persona : Option String
  prompt : String
  history : List Entry
  model : String
deriving DecidableEq

/-- The session as `on_chat_start` initializes it. -/
def initSession (model : String) : Session := ⟨none, "", [], model⟩

/-- Result of the single chat-completion call of a conversation turn: the
assistant text on success, the exception text on failure. -/
inductive Outcome where
  | ok (text : String)
  | err (msg : String)
deriving DecidableEq

/-- The usage hint sent for a `switch` with no argument. -/
def usageMsg : String := "Usage: `switch Marie Curie`"

/-- The acknowledgement sent after a successful `switch`. -/
def switchAckMsg : String := "🔄 Okay, who would you like to speak with now?"

/-- `on_message`: one turn of the session state machine.  `http` is the
oracle for the Wikipedia call (consulted only on the persona-resolution
branch), `comp` the result of the chat-completion call (consulted only on the
conversation branch).  Returns the updated session and the list of final
user-visible message contents, in send order (the `Thinking…` placeholder is
represented by its final overwritten content). -/
def on_message (s : Session) (raw : String) (http : String → WikiOutcome)
    (comp : Outcome) : Session × List String :=
  let user_text := pyStrip raw
  if pyStartsWith (pyLower user_text) "switch" then
    match splitFirstSpace user_text.data with
    | none => (s, [usageMsg])
    | some (_, rest) =>
        if pyStrip ⟨rest⟩ = "" then (s, [usageMsg])
        else ({ s with persona := none, history := [] }, [switchAckMsg])
  else
    match s.persona with
    | none =>
        let persona := pyTitle user_text
        let bio := fetch_bio persona http
        let system_prompt := build_system_prompt persona bio
        ({ s with persona := some persona, prompt := system_prompt,
                  history := [⟨"system", system_prompt⟩] },
         ["🕰️ Summoning **" ++ persona ++ "**… one moment.",
          "Great! Ask your first question."])
    | some _ =>
        let hist := s.history ++ [⟨"user", user_text⟩]
        match comp with
        | .ok t =>
            ({ s with history := hist ++ [⟨"assistant", t⟩] }, [t])
        | .err e =>
            ({ s with history := hist }, ["❗ Error from model: " ++ e])

/-- Reachable session states: the initial session, closed under turns. -/
inductive Reachable : Session → Prop where
  | init (model : String) : Reachable (initSession model)
  | step {s : Session} (raw : String) (http : String → WikiOutcome)
      (comp : Outcome) : Reachable s → Reachable (on_message s raw http comp).1

/-! ## Substring containment -/

/-- `sub` occurs verbatim as a contiguous substring of `s`. -/
def strContains (s sub : String) : Prop := sub.data <:+: s.data

instance (s sub : String) : Decidable (strContains s sub) :=
  inferInstanceAs (Decidable (sub.data <:+: s.data))

/-! ## Pieces of the dedented prompt template -/

/-- The eight-space indentation of the template's content lines. -/
def indent8 : List Char := [' ', ' ', ' ', ' ', ' ', ' ', ' ', ' ']

/-- The four-space indentation of the template's final line. -/
def indent4 : List Char := [' ', ' ', ' ', ' ']

/-- Template text between the second and third interpolation of the name. -/
def midText : String :=
  "'s typical tone, vocabulary, and worldview. Stay in character unless explicitly asked to drop the act. If you are unsure of something, make a best‑guess based on "

/-- Template text after the third interpolation of the name. -/
def tailText : String := "'s known life and era."

/-- Closed form of the characters of `build_system_prompt name bio` for
newline-free arguments: the dedented two-line instruction text. -/
def promptData (name bio : String) : List Char :=
  '\n' :: ("You are ".data ++ name.data ++ ", speaking in first person. ".data
      ++ (bioClause bio).data)
    ++ '\n' :: ("Adopt ".data ++ name.data ++ midText.data ++ name.data
      ++ tailText.data)
    ++ ['\n']

/-! ## Lemmas about `breakLines` and `joinLines` -/

lemma breakLines_ne_nil (l : List Char) : breakLines l ≠ [] := by
  induction l with
  | nil => simp [breakLines]
  | cons c cs ih =>
      simp only [breakLines]
      cases h : breakLines cs with
      | nil => simp
      | cons a as => by_cases hc : c = '\n' <;> simp [hc]

lemma breakLines_newline_cons (ys : List Char) :
    breakLines ('\n' :: ys) = [] :: breakLines ys := by
  simp only [breakLines]
  cases h : breakLines ys with
  | nil => exact absurd h (breakLines_ne_nil ys)
  | cons a as => simp

lemma breakLines_flat (xs ys : List Char) (h : ∀ c ∈ xs, c ≠ '\n') :
    breakLines (xs ++ '\n' :: ys) = xs :: breakLines ys := by
  induction xs with
  | nil => simpa using breakLines_newline_cons ys
  | cons c cs ih =>
      have hc : c ≠ '\n' := h c (List.mem_cons_self c cs)
      have ih' := ih fun d hd => h d (List.mem_cons_of_mem c hd)
      simp only [List.cons_append, breakLines, List.append_eq, ih', if_neg hc]

lemma breakLines_no_nl (xs : List Char) (h : ∀ c ∈ xs, c ≠ '\n') :
    breakLines xs = [xs] := by
  induction xs with
  | nil => rfl
  | cons c cs ih =>
      have hc : c ≠ '\n' := h c (List.mem_cons_self c cs)
      have ih' := ih fun d hd => h d (List.mem_cons_of_mem c hd)
      simp only [breakLines, ih', if_neg hc]

lemma isPrefixOf_append_self (l t : List Char) : l.isPrefixOf (l ++ t) = true := by
  induction l with
  | nil => simp [List.isPrefixOf]
  | cons a as ih => simp [List.isPrefixOf, ih]

/-- `textwrap.dedent` on the shape of lines produced by the prompt template:
an empty first line, two content lines sharing the eight-space margin and
starting with a non-blank character after it, and a whitespace-only last
line.  The margin is removed from the content lines and the blank line is
normalized away. -/
lemma dedentLines_shape (c d : Char) (xs ys : List Char)
    (hc : wsChar c = false) (hd : wsChar d = false) :
    dedentLines [[], indent8 ++ c :: xs, indent8 ++ d :: ys, indent4] =
      [[], c :: xs, d :: ys, []] := by
  have hall8 : ∀ a ∈ indent8, wsChar a = true := by decide
  have hblank0 : (if !([] : List Char).isEmpty && ([] : List Char).all wsChar
      then ([] : List Char) else []) = [] := by simp
  have hblank1 : (if !(indent8 ++ c :: xs).isEmpty && (indent8 ++ c :: xs).all wsChar
      then ([] : List Char) else indent8 ++ c :: xs) = indent8 ++ c :: xs := by
    have h : ((indent8 ++ c :: xs).all wsChar) = false := by
      simp [indent8, List.all_append, hc]
    simp [h]
  have hblank2 : (if !(indent8 ++ d :: ys).isEmpty && (indent8 ++ d :: ys).all wsChar
      then ([] : List Char) else indent8 ++ d :: ys) = indent8 ++ d :: ys := by
    have h : ((indent8 ++ d :: ys).all wsChar) = false := by
      simp [indent8, List.all_append, hd]
    simp [h]
  have hblank4 : (if !indent4.isEmpty && indent4.all wsChar
      then ([] : List Char) else indent4) = [] := by decide
  have hany0 : (([] : List Char).any fun a => !wsChar a) = false := rfl
  have hany1 : ((indent8 ++ c :: xs).any fun a => !wsChar a) = true := by
    simp [List.any_append, List.any_cons, hc]
  have hany2 : ((indent8 ++ d :: ys).any fun a => !wsChar a) = true := by
    simp [List.any_append, List.any_cons, hd]
  have htake1 : List.takeWhile wsChar (indent8 ++ c :: xs) = indent8 := by
    rw [List.takeWhile_append_of_pos hall8]
    simp [List.takeWhile_cons, hc]
  have htake2 : List.takeWhile wsChar (indent8 ++ d :: ys) = indent8 := by
    rw [List.takeWhile_append_of_pos hall8]
    simp [List.takeWhile_cons, hd]
  have hmargin : marginOf [indent8, indent8] = some indent8 := by decide
  have hpre0 : indent8.isPrefixOf ([] : List Char) = false := rfl
  have hpre1 : indent8.isPrefixOf (indent8 ++ c :: xs) = true :=
    isPrefixOf_append_self _ _
  have hpre2 : indent8.isPrefixOf (indent8 ++ d :: ys) = true :=
    isPrefixOf_append_self _ _
  have hdrop1 : List.drop indent8.length (indent8 ++ c :: xs) = c :: xs :=
    List.drop_left indent8 (c :: xs)
  have hdrop2 : List.drop indent8.length (indent8 ++ d :: ys) = d :: ys :=
    List.drop_left indent8 (d :: ys)
  simp only [dedentLines, List.map_cons, List.map_nil, hblank0, hblank1,
    hblank2, hblank4, List.filter_cons, List.filter_nil, hany0, hany1, hany2,
    Bool.false_eq_true, if_false, if_true, eq_self_iff_true, htake1, htake2,
    hmargin, hpre0, hpre1, hpre2, hdrop1, hdrop2]

lemma joinLines_four (a b : List Char) :
    joinLines [[], a, b, []] = '\n' :: (a ++ '\n' :: (b ++ ['\n'])) := by
  simp [joinLines]

lemma notMemAppend {a : Char} {l m : List Char} (h1 : a ∉ l) (h2 : a ∉ m) :
    a ∉ l ++ m := by
  simp only [List.mem_append, not_or]
  exact ⟨h1, h2⟩

lemma notMemCons {a b : Char} {l : List Char} (h1 : a ≠ b) (h2 : a ∉ l) :
    a ∉ b :: l := by
  simp only [List.mem_cons, not_or]
  exact ⟨h1, h2⟩

lemma bioClause_no_nl (bio : String) (hb : '\n' ∉ bio.data) :
    '\n' ∉ (bioClause bio).data := by
  unfold bioClause
  split
  · exact notMemAppend (by decide) hb
  · simp

/-- Closed form of the prompt builder for newline-free arguments: the
template dedents to the two instruction lines with the eight-space margin
removed and the whitespace-only last line blanked. -/
lemma build_closed (name bio : String) (hn : '\n' ∉ name.data)
    (hb : '\n' ∉ bio.data) :
    build_system_prompt name bio = ⟨promptData name bio⟩ := by
  refine String.ext ?_
  have hmk : ∀ l : List Char, (String.mk l).data = l := fun _ => rfl
  have hsplitA : ("\n        You are " : String).data
      = '\n' :: (indent8 ++ 'Y' :: "ou are ".data) := by decide
  have hsplitC : ("\n        Adopt " : String).data
      = '\n' :: (indent8 ++ 'A' :: "dopt ".data) := by decide
  have hsplitE : ("'s known life and era.\n    " : String).data
      = tailText.data ++ '\n' :: indent4 := by decide
  have hT : ("\n        You are " ++ name ++ ", speaking in first person. " ++
      bioClause bio ++
      "\n        Adopt " ++ name ++
      "'s typical tone, vocabulary, and worldview. Stay in character unless explicitly asked to drop the act. If you are unsure of something, make a best‑guess based on " ++
      name ++ "'s known life and era.\n    ").data
      = '\n' :: ((indent8 ++ 'Y' :: ("ou are ".data ++ name.data ++
          ", speaking in first person. ".data ++ (bioClause bio).data)) ++
        '\n' :: ((indent8 ++ 'A' :: ("dopt ".data ++ name.data ++
          midText.data ++ name.data ++ tailText.data)) ++
        '\n' :: indent4)) := by
    simp only [String.data_append, hsplitA, hsplitC, hsplitE, midText]
    simp [indent8, indent4, tailText, List.append_assoc]
  have hni1 : ('\n' : Char) ∉ indent8 ++ 'Y' :: ("ou are ".data ++ name.data ++
      ", speaking in first person. ".data ++ (bioClause bio).data) :=
    notMemAppend (by decide) (notMemCons (by decide)
      (notMemAppend (notMemAppend (notMemAppend (by decide) hn) (by decide))
        (bioClause_no_nl bio hb)))
  have hni2 : ('\n' : Char) ∉ indent8 ++ 'A' :: ("dopt ".data ++ name.data ++
      midText.data ++ name.data ++ tailText.data) :=
    notMemAppend (by decide) (notMemCons (by decide)
      (notMemAppend (notMemAppend (notMemAppend (notMemAppend (by decide) hn)
        (by decide)) hn) (by decide)))
  have hbreak4 : breakLines indent4 = [indent4] := by decide
  show joinLines (dedentLines (breakLines _)) = _
  rw [hT, breakLines_newline_cons,
    breakLines_flat _ _ (fun a ha h => hni1 (h ▸ ha)),
    breakLines_flat _ _ (fun a ha h => hni2 (h ▸ ha)), hbreak4,
    dedentLines_shape 'Y' 'A' _ _ (by decide) (by decide), joinLines_four]
  simp only [promptData, List.append_assoc, List.cons_append,
    show ("You are " : String).data = 'Y' :: "ou are ".data from by decide,
    show ("Adopt " : String).data = 'A' :: "dopt ".data from by decide]

/-! ## Lemmas about stripping and the `on_message` branches -/

lemma strip_of_all_ws (m : String) (hm : ∀ c ∈ m.data, pyWS c = true) :
    pyStrip m = "" := by
  refine String.ext ?_
  show stripChars m.data = ([] : List Char)
  unfold stripChars
  rw [List.dropWhile_eq_nil_iff.mpr hm]
  rfl

lemma strip_switch_ws (w : String) (hw : ∀ c ∈ w.data, pyWS c = true) :
    pyStrip ("switch" ++ w) = "switch" := by
  refine String.ext ?_
  show stripChars ("switch" ++ w).data = ("switch" : String).data
  have hws : ∀ a ∈ w.data.reverse, pyWS a = true := fun a ha =>
    hw a (List.mem_reverse.mp ha)
  have hsw : ("switch" : String).data = ['s', 'w', 'i', 't', 'c', 'h'] := by
    decide
  rw [String.data_append, hsw]
  unfold stripChars
  have h2 : List.dropWhile pyWS (['s', 'w', 'i', 't', 'c', 'h'] ++ w.data)
      = ['s', 'w', 'i', 't', 'c', 'h'] ++ w.data := by
    simp +decide [List.cons_append, List.dropWhile_cons]
  rw [h2, List.reverse_append,
    show (['s', 'w', 'i', 't', 'c', 'h'] : List Char).reverse
      = ['h', 'c', 't', 'i', 'w', 's'] from by decide,
    List.dropWhile_append_of_pos hws]
  decide

lemma on_message_strip_switch (s : Session) (m : String)
    (http : String → WikiOutcome) (comp : Outcome)
    (hm : pyStrip m = "switch") :
    on_message s m http comp = (s, [usageMsg]) := by
  simp only [on_message, hm,
    show pyStartsWith (pyLower "switch") "switch" = true from by decide,
    show splitFirstSpace ("switch" : String).data = none from by decide,
    if_true]

lemma on_message_switch_clear (s : Session) (m : String)
    (http : String → WikiOutcome) (comp : Outcome) (a rest : List Char)
    (hc : pyStartsWith (pyLower (pyStrip m)) "switch" = true)
    (hsp : splitFirstSpace (pyStrip m).data = some (a, rest))
    (harg : pyStrip ⟨rest⟩ ≠ "") :
    on_message s m http comp =
      ({ s with persona := none, history := [] }, [switchAckMsg]) := by
  simp [on_message, hc, hsp, harg]

lemma on_message_resolution (s : Session) (m : String)
    (http : String → WikiOutcome) (comp : Outcome)
    (hp : s.persona = none)
    (hc : pyStartsWith (pyLower (pyStrip m)) "switch" = false) :
    on_message s m http comp =
      ({ s with
          persona := some (pyTitle (pyStrip m)),
          prompt := build_system_prompt (pyTitle (pyStrip m))
            (fetch_bio (pyTitle (pyStrip m)) http),
          history := [⟨"system", build_system_prompt (pyTitle (pyStrip m))
            (fetch_bio (pyTitle (pyStrip m)) http)⟩] },
       ["🕰️ Summoning **" ++ pyTitle (pyStrip m) ++ "**… one moment.",
        "Great! Ask your first question."]) := by
  simp [on_message, hc, hp]

lemma on_message_active_ok (s : Session) (m : String)
    (http : String → WikiOutcome) (t p : String)
    (hp : s.persona = some p)
    (hc : pyStartsWith (pyLower (pyStrip m)) "switch" = false) :
    on_message s m http (.ok t) =
      ({ s with history := s.history ++
          [⟨"user", pyStrip m⟩, ⟨"assistant", t⟩] }, [t]) := by
  simp [on_message, hc, hp, List.append_assoc]

lemma on_message_active_err (s : Session) (m : String)
    (http : String → WikiOutcome) (e p : String)
    (hp : s.persona = some p)
    (hc : pyStartsWith (pyLower (pyStrip m)) "switch" = false) :
    on_message s m http (.err e) =
      ({ s with history := s.history ++ [⟨"user", pyStrip m⟩] },
       ["❗ Error from model: " ++ e]) := by
  simp [on_message, hc, hp]

lemma inv_step (s : Session) (raw : String) (http : String → WikiOutcome)
    (comp : Outcome) (h : s.persona = none → s.history = []) :
    (on_message s raw http comp).1.persona = none →
      (on_message s raw http comp).1.history = [] := by
  by_cases hc : pyStartsWith (pyLower (pyStrip raw)) "switch" = true
  · cases hsp : splitFirstSpace (pyStrip raw).data with
    | none => simpa [on_message, hc, hsp] using h
    | some pr =>
        obtain ⟨a, rest⟩ := pr
        by_cases harg : pyStrip ⟨rest⟩ = ""
        · simpa [on_message, hc, hsp, harg] using h
        · simp [on_message, hc, hsp, harg]
  · have hc' : pyStartsWith (pyLower (pyStrip raw)) "switch" = false := by
      simpa using hc
    cases hp : s.persona with
    | none => simp [on_message, hc', hp]
    | some p =>
        cases comp with
        | ok t => simp [on_message, hc', hp]
        | err e => simp [on_message, hc', hp]

/-! ## Claim C1 -/

/-- Session reached by resolving persona `Ada` from a fresh session. -/
def cexS1 : Session :=
  (on_message (initSession "gemini-2.0-flash") "Ada"
    (fun _ => WikiOutcome.netError) (Outcome.ok "x")).1

/-- Session reached from `cexS1` by a successful `switch Bob`. -/
def cexS2 : Session :=
  (on_message cexS1 "switch Bob" (fun _ => WikiOutcome.netError)
    (Outcome.ok "x")).1

/-- C1, counterexample: the state reached by resolving a persona and then
issuing a successful `switch` is reachable, has `persona = none`, yet its
system prompt is *not* the empty string — the `switch` branch clears only
`persona` and `history`, so the claimed invariant `persona is None ⇒
systemPrompt = ""` fails in a reachable state. -/
theorem claim_C1_counterexample :
    Reachable cexS2 ∧ cexS2.persona = none ∧ cexS2.history = [] ∧
      cexS2.prompt ≠ "" :=
  ⟨Reachable.step _ _ _ (Reachable.step _ _ _ (Reachable.init _)),
   by decide, by decide, by decide⟩

/-- C1 (amended): a successful `switch` command clears persona and history
(but leaves the system prompt unchanged, as the resulting session record
shows), and in every reachable session state `persona = none` implies
`history = []`; the system-prompt half of the claimed invariant does not
hold. -/
theorem claim_C1_amended :
    (∀ s, Reachable s → (s.persona = none → s.history = [])) ∧
    (∀ (s : Session) (m : String) (http : String → WikiOutcome)
      (comp : Outcome) (a rest : List Char),
      pyStartsWith (pyLower (pyStrip m)) "switch" = true →
      splitFirstSpace (pyStrip m).data = some (a, rest) →
      pyStrip ⟨rest⟩ ≠ "" →
      on_message s m http comp =
        ({ s with persona := none, history := [] }, [switchAckMsg])) := by
  constructor
  · intro s hs
    induction hs with
    | init model => simp [initSession]
    | step raw http comp hr ih => exact inv_step _ raw http comp ih
  · intro s m http comp a rest hc hsp harg
    exact on_message_switch_clear s m http comp a rest hc hsp harg

/-- Witness for C1 (amended) at concrete inputs. -/
theorem claim_C1_witness :
    ((initSession "gemini-2.0-flash").persona = none →
      (initSession "gemini-2.0-flash").history = []) ∧
    on_message ⟨some "Ada", "P", [⟨"system", "P"⟩], "m"⟩ "switch Bob"
        (fun _ => WikiOutcome.netError) (Outcome.ok "x") =
      (⟨none, "P", [], "m"⟩, [switchAckMsg]) :=
  ⟨claim_C1_amended.1 _ (Reachable.init _),
   claim_C1_amended.2 _ _ _ _ ['s', 'w', 'i', 't', 'c', 'h'] ['B', 'o', 'b']
     (by decide) (by decide) (by decide)⟩

/-! ## Claim C2 -/

/-- C2: in the ACTIVE state (persona set), a non-command message appends the
user entry and then the assistant entry on success, and only the user entry on
failure; in both cases persona and prompt are untouched (the resulting session
is a pure history update of the input session), so the session stays ACTIVE. -/
theorem claim_C2_active_turn_appends (s : Session) (m : String)
    (http : String → WikiOutcome) (p : String)
    (hp : s.persona = some p)
    (hc : pyStartsWith (pyLower (pyStrip m)) "switch" = false) :
    (∀ t, on_message s m http (.ok t) =
      ({ s with history := s.history ++
          [⟨"user", pyStrip m⟩, ⟨"assistant", t⟩] }, [t])) ∧
    (∀ e, on_message s m http (.err e) =
      ({ s with history := s.history ++ [⟨"user", pyStrip m⟩] },
       ["❗ Error from model: " ++ e])) :=
  ⟨fun t => on_message_active_ok s m http t p hp hc,
   fun e => on_message_active_err s m http e p hp hc⟩

/-- Witness for C2 at concrete inputs. -/
theorem claim_C2_witness :
    on_message ⟨some "Ada", "P", [⟨"system", "P"⟩], "m"⟩ "hello"
        (fun _ => WikiOutcome.netError) (.ok "Hi!") =
      (⟨some "Ada", "P", [⟨"system", "P"⟩, ⟨"user", "hello"⟩,
          ⟨"assistant", "Hi!"⟩], "m"⟩, ["Hi!"]) ∧
    on_message ⟨some "Ada", "P", [⟨"system", "P"⟩], "m"⟩ "hello"
        (fun _ => WikiOutcome.netError) (.err "boom") =
      (⟨some "Ada", "P", [⟨"system", "P"⟩, ⟨"user", "hello"⟩], "m"⟩,
       ["❗ Error from model: boom"]) :=
  ⟨(claim_C2_active_turn_appends _ "hello" _ "Ada" rfl (by decide)).1 "Hi!",
   (claim_C2_active_turn_appends _ "hello" _ "Ada" rfl (by decide)).2 "boom"⟩

/-! ## Claim C3 -/

/-- C3: while persona is unset, a non-command message resolves the persona:
the stripped text, title-cased, becomes the persona; the history is reset to
exactly one system entry holding the built prompt; the state becomes ACTIVE.
The result is the same for every completion outcome `comp` — `comp` does not
occur on the right-hand side — so no model completion call is made on this
turn. -/
theorem claim_C3_persona_resolution (s : Session) (m : String)
    (http : String → WikiOutcome) (comp : Outcome)
    (hp : s.persona = none)
    (hc : pyStartsWith (pyLower (pyStrip m)) "switch" = false) :
    on_message s m http comp =
      ({ s with
          persona := some (pyTitle (pyStrip m)),
          prompt := build_system_prompt (pyTitle (pyStrip m))
            (fetch_bio (pyTitle (pyStrip m)) http),
          history := [⟨"system", build_system_prompt (pyTitle (pyStrip m))
            (fetch_bio (pyTitle (pyStrip m)) http)⟩] },
       ["🕰️ Summoning **" ++ pyTitle (pyStrip m) ++ "**… one moment.",
        "Great! Ask your first question."]) :=
  on_message_resolution s m http comp hp hc

/-- Witness for C3 at concrete inputs; the second conjunct exhibits the
independence of the turn from the completion outcome. -/
theorem claim_C3_witness :
    on_message (initSession "g") "marie curie" (fun _ => WikiOutcome.netError)
        (.ok "x") =
      (⟨some "Marie Curie", build_system_prompt "Marie Curie" "",
        [⟨"system", build_system_prompt "Marie Curie" ""⟩], "g"⟩,
       ["🕰️ Summoning **Marie Curie**… one moment.",
        "Great! Ask your first question."]) ∧
    on_message (initSession "g") "marie curie" (fun _ => WikiOutcome.netError)
        (.ok "x") =
      on_message (initSession "g") "marie curie" (fun _ => WikiOutcome.netError)
        (.err "down") := by
  constructor
  · exact claim_C3_persona_resolution _ "marie curie" _ _ rfl (by decide)
  · rw [claim_C3_persona_resolution _ "marie curie" _ _ rfl (by decide),
      claim_C3_persona_resolution _ "marie curie" _ _ rfl (by decide)]

/-! ## Claim C4 -/

/-- C4: `fetch_bio` is a total function into strings (it never raises, by
construction every raising path of the Python body is caught), and on every
failing lookup — network error, status ≥ 400, malformed payload, missing
`extract` field — it returns the empty string, for every input name,
including names with spaces that are percent-encoded into the URL. -/
theorem claim_C4_fetch_bio_failure (name : String)
    (http : String → WikiOutcome)
    (h : wikiFailure (http (url_of name)) = true) :
    fetch_bio name http = "" := by
  cases ho : http (url_of name) with
  | netError => simp [fetch_bio, ho]
  | response status json =>
      rw [ho] at h
      by_cases hs : 400 ≤ status
      · simp [fetch_bio, ho, hs]
      · cases json with
        | none => simp [fetch_bio, ho, hs]
        | some data =>
            cases hl : data.lookup "extract" with
            | none => simp [fetch_bio, ho, hs, hl]
            | some v => simp [wikiFailure, hs, hl] at h

/-- Witness for C4: a name requiring percent-encoding against a 404 with no
parseable body. -/
theorem claim_C4_witness :
    fetch_bio "Marie Curie" (fun _ => WikiOutcome.response 404 none) = "" :=
  claim_C4_fetch_bio_failure "Marie Curie" _ (by decide)

/-! ## Claim C5 -/

/-- A turn is processed as a `switch` command when it produces one of the two
command outcomes: the usage rejection with the session unchanged, or the
persona/history clearing with the switch acknowledgement. -/
def treatedAsCommand (s : Session) (raw : String)
    (http : String → WikiOutcome) (comp : Outcome) : Prop :=
  on_message s raw http comp = (s, [usageMsg]) ∨
  on_message s raw http comp =
    ({ s with persona := none, history := [] }, [switchAckMsg])

/-- C5: a message is treated as a `switch` command — rather than as
conversation content or a persona name — exactly when its stripped text,
lowercased, starts with `switch`. -/
theorem claim_C5_command_iff (s : Session) (raw : String)
    (http : String → WikiOutcome) (comp : Outcome) :
    treatedAsCommand s raw http comp ↔
      pyStartsWith (pyLower (pyStrip raw)) "switch" = true := by
  constructor
  · intro htr
    unfold treatedAsCommand at htr
    by_contra hfalse
    have hc : pyStartsWith (pyLower (pyStrip raw)) "switch" = false := by
      simpa using hfalse
    cases hp : s.persona with
    | none =>
        rw [on_message_resolution s raw http comp hp hc] at htr
        rcases htr with h | h
        · exact absurd (congrArg Prod.snd h) (by simp)
        · exact absurd (congrArg (fun x => x.1.persona) h) (by simp)
    | some p =>
        cases comp with
        | ok t =>
            rw [on_message_active_ok s raw http t p hp hc] at htr
            rcases htr with h | h
            · have hh := congrArg (fun x => x.1.history) h
              simp at hh
            · have hh := congrArg (fun x => x.1.persona) h
              simp [hp] at hh
        | err e =>
            rw [on_message_active_err s raw http e p hp hc] at htr
            rcases htr with h | h
            · have hh := congrArg (fun x => x.1.history) h
              simp at hh
            · have hh := congrArg (fun x => x.1.persona) h
              simp [hp] at hh
  · intro ht
    cases hsp : splitFirstSpace (pyStrip raw).data with
    | none =>
        left
        simp [on_message, ht, hsp]
    | some pr =>
        obtain ⟨a, rest⟩ := pr
        by_cases harg : pyStrip ⟨rest⟩ = ""
        · left
          simp [on_message, ht, hsp, harg]
        · right
          exact on_message_switch_clear s raw http comp a rest ht hsp harg

/-! ## Claim C6 -/

/-- C6: for every session state, `switch` alone or followed only by
whitespace yields the usage message and leaves the session record entirely
unchanged. -/
theorem claim_C6_blank_switch_no_change (s : Session)
    (http : String → WikiOutcome) (comp : Outcome) (w : String)
    (hw : ∀ c ∈ w.data, pyWS c = true) :
    on_message s ("switch" ++ w) http comp = (s, [usageMsg]) :=
  on_message_strip_switch s _ http comp (strip_switch_ws w hw)

/-- Witness for C6: `switch` followed by three spaces in an active session. -/
theorem claim_C6_witness :
    on_message ⟨some "Ada", "P", [⟨"system", "P"⟩], "m"⟩ ("switch" ++ "   ")
        (fun _ => WikiOutcome.netError) (.ok "x") =
      (⟨some "Ada", "P", [⟨"system", "P"⟩], "m"⟩, [usageMsg]) :=
  claim_C6_blank_switch_no_change _ _ _ "   " (by decide)

/-! ## Claim C7 -/

/-- C7, counterexample: for a name containing a newline followed by
indentation, the dedent step strips the indentation inside the interpolated
name, so the output of `build_system_prompt` with empty bio does not contain
the name. -/
theorem claim_C7_counterexample :
    ¬ strContains (build_system_prompt "A\n        B" "") "A\n        B" := by
  decide

/-- C7 (amended): for every name without newline and colon characters,
`build_system_prompt name ""` contains the name, and the biography grounding
sentence is omitted entirely — its text (which is the only source of a colon
in the template) does not occur in the output. -/
theorem claim_C7_amended (name : String) (hn : '\n' ∉ name.data)
    (hcol : ':' ∉ name.data) :
    strContains (build_system_prompt name "") name ∧
    ¬ strContains (build_system_prompt name "")
      "Here is a concise biography to ground you:" := by
  have hb : ('\n' : Char) ∉ ("" : String).data := by decide
  have hcf := build_closed name "" hn hb
  constructor
  · unfold strContains
    rw [hcf]
    show name.data <:+: promptData name ""
    refine ⟨'\n' :: "You are ".data,
      ", speaking in first person. ".data ++ (bioClause "").data ++
        '\n' :: ("Adopt ".data ++ name.data ++ midText.data ++ name.data ++
          tailText.data) ++ ['\n'], ?_⟩
    simp [promptData, List.append_assoc]
  · intro hinf
    unfold strContains at hinf
    rw [hcf] at hinf
    have h2 : ("Here is a concise biography to ground you:" : String).data
        <:+: promptData name "" := hinf
    have hc : (':' : Char) ∈ promptData name "" := h2.subset (by decide)
    simp +decide [promptData, bioClause, List.mem_append, List.mem_cons,
      hcol] at hc

/-- Witness for C7 (amended) at a concrete name. -/
theorem claim_C7_witness :
    strContains (build_system_prompt "Ada" "") "Ada" ∧
    ¬ strContains (build_system_prompt "Ada" "")
      "Here is a concise biography to ground you:" :=
  claim_C7_amended "Ada" (by decide) (by decide)

/-! ## Claim C8 -/

/-- C8, counterexample: a bio containing a newline has its internal
indentation altered by the dedent step, so it is not contained verbatim in
the built prompt. -/
theorem claim_C8_counterexample :
    ¬ strContains (build_system_prompt "N" "x\n y") "x\n y" := by
  decide

/-- C8 (amended): for every name and every non-empty bio, both without
newline characters, the built prompt contains the bio verbatim as a
contiguous substring. -/
theorem claim_C8_amended (name bio : String) (hn : '\n' ∉ name.data)
    (hb : '\n' ∉ bio.data) (hbio : bio ≠ "") :
    strContains (build_system_prompt name bio) bio := by
  unfold strContains
  rw [build_closed name bio hn hb]
  show bio.data <:+: promptData name bio
  have hcl : (bioClause bio).data =
      ("Here is a concise biography to ground you: " : String).data
        ++ bio.data := by
    rw [bioClause, if_pos hbio]
    simp
  refine ⟨'\n' :: ("You are ".data ++ name.data ++
      ", speaking in first person. ".data ++
      ("Here is a concise biography to ground you: " : String).data),
    '\n' :: ("Adopt ".data ++ name.data ++ midText.data ++ name.data ++
      tailText.data) ++ ['\n'], ?_⟩
  simp [promptData, hcl, List.append_assoc]

/-- Witness for C8 (amended) at concrete inputs. -/
theorem claim_C8_witness :
    strContains (build_system_prompt "Ada" "Bio text.") "Bio text." :=
  claim_C8_amended "Ada" "Bio text." (by decide) (by decide) (by decide)

/-! ## Claim C9 -/

/-- C9, counterexample: with both environment variables present but
`OPENAI_API_KEY` set to the empty string, the truthiness test fails and the
Gemini backend with the alternate base URL is selected, although
`OPENAI_API_KEY` is not absent. -/
theorem claim_C9_counterexample :
    (Env.mk (some "gkey") (some "")).gemini.isSome = true ∧
    (Env.mk (some "gkey") (some "")).openai.isSome = true ∧
    get_async_client (Env.mk (some "gkey") (some "")) =
      ⟨some "gkey", some geminiBaseURL⟩ := by
  refine ⟨rfl, rfl, ?_⟩
  decide

/-- C9 (amended): the OpenAI backend with its default endpoint is selected
exactly when `OPENAI_API_KEY` is present with a non-empty value (regardless
of `GEMINI_API_KEY`); the Gemini backend with the alternate base URL is
selected when `OPENAI_API_KEY` is absent or empty. -/
theorem claim_C9_amended (env : Env) :
    (truthy env.openai = true →
      get_async_client env = ⟨env.openai, none⟩) ∧
    (truthy env.openai = false →
      get_async_client env = ⟨env.gemini, some geminiBaseURL⟩) := by
  constructor <;> intro h <;> simp [get_async_client, h]

/-- Witness for C9 (amended) at concrete environments. -/
theorem claim_C9_witness :
    get_async_client (Env.mk (some "gk") (some "sk")) = ⟨some "sk", none⟩ ∧
    get_async_client (Env.mk (some "gk") none) =
      ⟨some "gk", some geminiBaseURL⟩ :=
  ⟨(claim_C9_amended _).1 (by decide), (claim_C9_amended _).2 (by decide)⟩

/-! ## Claim C10 -/

/-- C10: a whitespace-only message while persona is unset resolves the
persona to the empty string (the session becomes ACTIVE with a prompt built
for the empty name), and later non-command messages are processed as
conversation turns — the empty persona is never treated as still awaiting
selection. -/
theorem claim_C10_ws_persona (s : Session) (m : String)
    (http : String → WikiOutcome) (comp : Outcome)
    (hp : s.persona = none) (hm : ∀ c ∈ m.data, pyWS c = true) :
    (on_message s m http comp).1.persona = some "" ∧
    (on_message s m http comp).1.prompt =
      build_system_prompt "" (fetch_bio "" http) ∧
    (on_message s m http comp).1.history =
      [⟨"system", build_system_prompt "" (fetch_bio "" http)⟩] ∧
    (∀ (m' : String) (http' : String → WikiOutcome) (t : String),
      pyStartsWith (pyLower (pyStrip m')) "switch" = false →
      (on_message (on_message s m http comp).1 m' http' (.ok t)).1.history =
        (on_message s m http comp).1.history ++
          [⟨"user", pyStrip m'⟩, ⟨"assistant", t⟩]) := by
  have hstrip : pyStrip m = "" := strip_of_all_ws m hm
  have hc : pyStartsWith (pyLower (pyStrip m)) "switch" = false := by
    rw [hstrip]
    decide
  have htitle : pyTitle (pyStrip m) = "" := by
    rw [hstrip]
    rfl
  have hres := on_message_resolution s m http comp hp hc
  refine ⟨by simp [hres, htitle], by simp [hres, htitle],
    by simp [hres, htitle], ?_⟩
  intro m' http' t hc'
  have hP : (on_message s m http comp).1.persona = some "" := by
    simp [hres, htitle]
  rw [on_message_active_ok _ m' http' t "" hP hc']

/-- Witness for C10 at concrete inputs. -/
theorem claim_C10_witness :
    (on_message (initSession "g") " " (fun _ => WikiOutcome.netError)
      (.ok "x")).1.persona = some "" ∧
    (on_message (on_message (initSession "g") " "
        (fun _ => WikiOutcome.netError) (.ok "x")).1 "hi"
        (fun _ => WikiOutcome.netError) (.ok "yo")).1.history =
      (on_message (initSession "g") " " (fun _ => WikiOutcome.netError)
          (.ok "x")).1.history ++ [⟨"user", "hi"⟩, ⟨"assistant", "yo"⟩] :=
  ⟨(claim_C10_ws_persona _ _ _ _ rfl (by decide)).1,
   (claim_C10_ws_persona _ _ _ _ rfl (by decide)).2.2.2 "hi" _ "yo"
     (by decide)⟩

end TimeTravelBot
